import Mathlib

/-!
Shallow embedding of the IoT-SmartHome repository: the Node server
(`server.js`, and the watcher-driven server variant that follows the
connectivity test in `test-firebase.js`) and the ESP32 sketch
(`src/unnamed/part_000`).

Modelling conventions:
- The Firebase `smartHomeState` document is the structure `StateDoc`.
- Timestamps are `Int` milliseconds since epoch; each request or event is
  given a single clock sample `now` standing for `Date.now()`.
- A route that answers HTTP 400 before touching the database is embedded as
  `Except ApiError`; the error constructors mirror the distinct 400 messages.
- The per-process `activeTimers` dictionary (timer id to scheduled delay) is
  an association list `List (String × Int)`; `clearAllTimers` is `[]`.
- Firebase `update` with an object of keys is embedded as the sequence of
  field updates the object describes (last write per key wins, one document
  out), and `set` on a subpath replaces that field.
-/

/-- A persisted timer record under `smartHomeState/timer`, as written by
`executeTimer` / the `/do/timer` routes: id `timer_<ms>`, target devices,
requested duration in seconds, action `on`/`off`, absolute start and end
timestamps in ms, and the `active` flag. -/
structure TimerRecord where
  id : String
  devices : List String
  duration : Int
  action : String
  startedAt : Int
  endsAt : Int
  active : Bool
  deriving DecidableEq, Repr

/-- The `smartHomeState` document: four device booleans, the mode string,
the kill flag, and the optional timer record (`null` = `none`). -/
@[ext]
structure StateDoc where
  led1 : Bool
  led2 : Bool
  led3 : Bool
  tv : Bool
  mode : String
  kill : Bool
  timer : Option TimerRecord
  deriving DecidableEq, Repr

/-- `defaultState` from the server files. -/
def defaultState : StateDoc :=
  { led1 := false, led2 := false, led3 := false, tv := false
    mode := "normal", kill := false, timer := none }

/-- The known device identifiers (the keys of the device booleans), the list
`["led1", "led2", "led3", "tv"]` used by the toggle route and the
watcher-variant timer validation. -/
def knownDevices : List String := ["led1", "led2", "led3", "tv"]

/-- Read the device boolean stored under a device key (false for a key that
is not a device field). -/
def getDev (s : StateDoc) (d : String) : Bool :=
  if d = "led1" then s.led1
  else if d = "led2" then s.led2
  else if d = "led3" then s.led3
  else if d = "tv" then s.tv
  else false

/-- Write the device boolean stored under a device key; a key that is not a
device field leaves the document unchanged (valid requests only carry known
keys). -/
def setDevice (s : StateDoc) (d : String) (v : Bool) : StateDoc :=
  if d = "led1" then { s with led1 := v }
  else if d = "led2" then { s with led2 := v }
  else if d = "led3" then { s with led3 := v }
  else if d = "tv" then { s with tv := v }
  else s

/-- Apply `updates[d] = c` for each `d` in `devs`, as built by
`devices.forEach(dev => updates[dev] = ...)` and applied in one
`update` call. -/
def setAllDevices (devs : List String) (c : Bool) (s : StateDoc) : StateDoc :=
  devs.foldl (fun acc d => setDevice acc d c) s

/-- The merge-update a firing timer performs (watcher lines 213-217 and
221-226 of the watcher-variant server): each listed device is set to
`action == "on"`, `kill` is cleared when the action is `on`, and the
`timer` field is set to null, all in one `update` call. -/
def timerFireUpdates (t : TimerRecord) (s : StateDoc) : StateDoc :=
  let s1 := setAllDevices t.devices (t.action == "on") s
  let s2 := if t.action == "on" then { s1 with kill := false } else s1
  { s2 with timer := none }

/-- One server process as the timer watcher sees it: the document in the
store plus the local `activeTimers` map from timer id to the delay (ms) its
`setTimeout` was armed with. -/
structure ProcState where
  store : StateDoc
  armed : List (String × Int)
  deriving DecidableEq, Repr

/-- The `smartHomeState/timer` `on("value")` watcher callback of the
watcher-variant server, as a function of the delivered snapshot value and
the current time: skip when the snapshot id is already tracked, otherwise
clear all local timers, compute `remaining = max(0, endsAt - now)`, execute
immediately when `remaining <= 0`, else arm a countdown for `remaining`
milliseconds under the snapshot id.  An inactive or null snapshot clears
all local timers. -/
def watchTimer (p : ProcState) (snap : Option TimerRecord) (now : Int) : ProcState :=
  match snap with
  | some t =>
    if t.active then
      if (List.lookup t.id p.armed).isSome then p
      else
        let remaining := max 0 (t.endsAt - now)
        if remaining ≤ 0 then
          { store := timerFireUpdates t p.store, armed := [] }
        else
          { store := p.store, armed := [(t.id, remaining)] }
    else { p with armed := [] }
  | none => { p with armed := [] }

/-- The armed countdown firing: the `setTimeout` callback applies the
captured timer record's merge-update to the then-current document and
deletes its `activeTimers` entry. -/
def timerExpire (p : ProcState) (t : TimerRecord) : ProcState :=
  { store := timerFireUpdates t p.store
    armed := p.armed.filter (fun kv => kv.1 ≠ t.id) }

/-- The distinct HTTP 400 validation errors of the routes (one constructor
per distinct 400 message in the source). -/
inductive ApiError where
  /-- `Invalid device. Use led1, led2, led3, or tv.` -/
  | invalidDevice
  /-- `Invalid mode. Use normal, wave, or pulse.` -/
  | invalidMode
  /-- `devices must be a non-empty array of led names` -/
  | emptyDevices
  /-- `duration must be between 1 and 86400 seconds` -/
  | badDuration
  /-- `action must be on or off` -/
  | badAction
  /-- `Invalid device names. Use led1, led2, led3, tv.` -/
  | badDeviceNames
  /-- `Unknown Device` (the `/do` routes) -/
  | unknownDevice
  deriving DecidableEq, Repr

/-- `POST /api/toggle/:led`: reject an unknown key, otherwise read the
current boolean and set the field to its negation.  No other field of the
document is written. -/
def toggleDevice (doc : StateDoc) (led : String) : Except ApiError StateDoc :=
  if !(knownDevices.contains led) then .error .invalidDevice
  else .ok (setDevice doc led (!(getDev doc led)))

/-- The set of mode strings accepted by `POST /api/mode/:mode` (the route
comment: removed `disco` to fix the LED2 conflict). -/
def serverModes : List String := ["normal", "wave", "pulse"]

/-- `POST /api/mode/:mode`: reject a string outside `serverModes`, otherwise
set only the `mode` field. -/
def setMode (doc : StateDoc) (m : String) : Except ApiError StateDoc :=
  if !(serverModes.contains m) then .error .invalidMode
  else .ok { doc with mode := m }

/-- `POST /api/kill`: one update setting `led1`, `led2`, `led3` to false,
`kill` to true and `mode` to `normal` (`tv` and `timer` are not keys of the
update object). -/
def killRoute (doc : StateDoc) : StateDoc :=
  { doc with led1 := false, led2 := false, led3 := false
             kill := true, mode := "normal" }

/-- `GET /do/emergency`: one update setting all four device booleans to
false and `kill` to true. -/
def doEmergency (doc : StateDoc) : StateDoc :=
  { doc with led1 := false, led2 := false, led3 := false, tv := false
             kill := true }

/-- The `DEVICE_ALIASES` table of the `/do` routes. -/
def DEVICE_ALIASES : List (String × String) :=
  [("living-room", "led1"), ("livingroom", "led1"), ("lounge", "led1"), ("led1", "led1"),
   ("bedroom", "led2"), ("bed", "led2"), ("led2", "led2"),
   ("kitchen", "led3"), ("led3", "led3"),
   ("tv", "tv"), ("television", "tv")]

/-- `toLowerCase()` of the route parameters, written over the character
list so that it evaluates by kernel reduction. -/
def asciiLower (s : String) : String := String.mk (s.data.map Char.toLower)

/-- `GET /do/:device/:action`: resolve the lower-cased device alias,
validate the lower-cased action token, compute the new value (`toggle`
negates the current one), and apply one update setting the device key and,
when the new value is true, clearing `kill` in the same update. -/
def doDeviceAction (doc : StateDoc) (device action : String) : Except ApiError StateDoc :=
  match List.lookup (asciiLower device) DEVICE_ALIASES with
  | none => .error .unknownDevice
  | some key =>
    let act := asciiLower action
    if !(["on", "off", "toggle"].contains act) then .error .badAction
    else
      let newVal := if act = "toggle" then !(getDev doc key) else act == "on"
      let doc1 := setDevice doc key newVal
      .ok (if newVal then { doc1 with kill := false } else doc1)

/-- A scheduling request body for `POST /api/timer/start`; a missing or
non-array `devices` field is `none`. -/
structure TimerStartReq where
  devices : Option (List String)
  duration : Int
  action : String
  deriving Repr

/-- `POST /api/timer/start` of the watcher-variant server: validate in
source order (devices present and non-empty, then duration, then action,
then device names against `knownDevices`), each rejection answered before
any store write or local-timer change; on success clear all local timers
and persist (replace `smartHomeState/timer`) the record with id
`timer_<now>`, `startedAt = now`, `endsAt = now + duration * 1000`,
`active = true`, answering with the generated id. -/
def timerStart (req : TimerStartReq) (now : Int) (p : ProcState) :
    Except ApiError (ProcState × String) :=
  match req.devices with
  | none => .error .emptyDevices
  | some devs =>
    if devs.isEmpty then .error .emptyDevices
    else if req.duration = 0 ∨ req.duration < 1 ∨ req.duration > 86400 then .error .badDuration
    else if !(["on", "off"].contains req.action) then .error .badAction
    else if !(devs.all (fun d => knownDevices.contains d)) then .error .badDeviceNames
    else
      let timerId := "timer_" ++ toString now
      let trec : TimerRecord :=
        { id := timerId, devices := devs, duration := req.duration
          action := req.action, startedAt := now
          endsAt := now + req.duration * 1000, active := true }
      .ok ({ store := { p.store with timer := some trec }, armed := [] }, timerId)

/-- `Math.ceil(a / b)` for integer `a` and positive integer `b`
(JavaScript float division then ceiling). -/
def ceilDiv (a b : Int) : Int := -((-a) / b)

/-- The JSON answer of `GET /api/timer/status`. -/
inductive TimerStatusResp where
  /-- `{ active: false }` -/
  | inactive
  /-- `{ active: true, ...timer, remaining }` -/
  | active (t : TimerRecord) (remaining : Int)
  deriving DecidableEq, Repr

/-- `GET /api/timer/status`: when an active record is stored, compute
`remaining = max(0, ceil((endsAt - now) / 1000))` seconds; when that is 0,
set the stored `timer` field to null and answer inactive, otherwise answer
the record with `remaining`.  The pair returned is (document after the
query, response). -/
def timerStatus (doc : StateDoc) (now : Int) : StateDoc × TimerStatusResp :=
  match doc.timer with
  | some t =>
    if t.active then
      let remaining := max 0 (ceilDiv (t.endsAt - now) 1000)
      if remaining ≤ 0 then ({ doc with timer := none }, .inactive)
      else (doc, .active t remaining)
    else (doc, .inactive)
  | none => (doc, .inactive)

/-- The body of `POST /api/esp/heartbeat` (all metadata optional). -/
structure HeartbeatBody where
  ip : Option String
  rssi : Option Int
  uptime : Option Int
  freeHeap : Option Int
  deriving DecidableEq, Repr

/-- The mutable `esp32Status` object of the server. -/
structure Esp32Status where
  online : Bool
  lastSeen : Option Int
  ip : Option String
  rssi : Option Int
  uptime : Option Int
  freeHeap : Option Int
  deriving DecidableEq, Repr

/-- The initial `esp32Status` value. -/
def initialEspStatus : Esp32Status :=
  { online := false, lastSeen := none, ip := none, rssi := none
    uptime := none, freeHeap := none }

/-- `ESP_TIMEOUT_MS`: 30 seconds without a heartbeat means offline. -/
def ESP_TIMEOUT_MS : Int := 30000

/-- `POST /api/esp/heartbeat`: replace `esp32Status` with online true,
`lastSeen = now`, and the body metadata (the request ip as fallback). -/
def espHeartbeat (body : HeartbeatBody) (reqIp : String) (now : Int) : Esp32Status :=
  { online := true, lastSeen := some now, ip := some (body.ip.getD reqIp)
    rssi := body.rssi, uptime := body.uptime, freeHeap := body.freeHeap }

/-- The 5-second `setInterval` check: when a heartbeat was seen and
`now - lastSeen > ESP_TIMEOUT_MS`, force online to false. -/
def espTick (st : Esp32Status) (now : Int) : Esp32Status :=
  match st.lastSeen with
  | some ls => if now - ls > ESP_TIMEOUT_MS then { st with online := false } else st
  | none => st

/-- `GET /api/esp/status`: when a heartbeat was seen, recompute
`online = (now - lastSeen < ESP_TIMEOUT_MS)`, then answer the (updated)
`esp32Status` object itself. -/
def espStatusQuery (st : Esp32Status) (now : Int) : Esp32Status :=
  match st.lastSeen with
  | some ls => { st with online := decide (now - ls < ESP_TIMEOUT_MS) }
  | none => st

/-- The three event sources touching `esp32Status`, each stamped with the
`Date.now()` it observes. -/
inductive EspEvent where
  /-- a `POST /api/esp/heartbeat` request -/
  | heartbeat (body : HeartbeatBody) (reqIp : String)
  /-- one firing of the 5-second `setInterval` check -/
  | tick
  /-- a `GET /api/esp/status` request -/
  | status
  deriving Repr

/-- One event applied to `esp32Status`. -/
def espStep (st : Esp32Status) (now : Int) (e : EspEvent) : Esp32Status :=
  match e with
  | .heartbeat body reqIp => espHeartbeat body reqIp now
  | .tick => espTick st now
  | .status => espStatusQuery st now

/-- A sequence of timestamped events applied in order. -/
def espRun (st : Esp32Status) (evs : List (Int × EspEvent)) : Esp32Status :=
  evs.foldl (fun s te => espStep s te.1 te.2) st

/-- The ESP32 sketch state: the mirrored document fields, the animation
bookkeeping, and the three GPIO pin levels last written. -/
structure EspDeviceState where
  led1 : Bool
  led2 : Bool
  led3 : Bool
  killSwitch : Bool
  mode : String
  lastAnim : Nat
  waveStep : Nat
  pulse : Bool
  pin1 : Bool
  pin2 : Bool
  pin3 : Bool
  deriving DecidableEq, Repr

/-- One pass of `hardwareEngine()` in the sketch loop, given `millis()` and
the three `random(0,2)` draws the disco branch would make: the kill switch
drives every pin low and returns first; normal mode copies the stored
booleans to the pins; animation modes are rate-limited to one step per
200 ms and drive the pins from the animation state. -/
def hardwareEngine (s : EspDeviceState) (millis : Nat) (r1 r2 r3 : Bool) : EspDeviceState :=
  if s.killSwitch then { s with pin1 := false, pin2 := false, pin3 := false }
  else if s.mode = "normal" then { s with pin1 := s.led1, pin2 := s.led2, pin3 := s.led3 }
  else if millis - s.lastAnim < 200 then s
  else
    let s := { s with lastAnim := millis }
    if s.mode = "wave" then
      { s with pin1 := s.waveStep == 0, pin2 := s.waveStep == 1, pin3 := s.waveStep == 2
               waveStep := (s.waveStep + 1) % 3 }
    else if s.mode = "pulse" then
      let p := !s.pulse
      { s with pulse := p, pin1 := p, pin2 := p, pin3 := p }
    else if s.mode = "disco" then
      { s with pin1 := r1, pin2 := r2, pin3 := r3 }
    else s

/-- Modelled from the spec: the closed mode enumeration of the data model
section, {`normal`, `wave`, `pulse`, `disco`} — stated for comparison with
the `serverModes` list the route actually accepts. -/
def specModeEnumeration : List String := ["normal", "wave", "pulse", "disco"]

/-! ### Field characterisation of the device updates -/

theorem setDevice_led1 (s : StateDoc) (d : String) (v : Bool) :
    (setDevice s d v).led1 = if d = "led1" then v else s.led1 := by
  simp only [setDevice]
  split_ifs <;> simp_all

theorem setDevice_led2 (s : StateDoc) (d : String) (v : Bool) :
    (setDevice s d v).led2 = if d = "led2" then v else s.led2 := by
  simp only [setDevice]
  split_ifs <;> simp_all

theorem setDevice_led3 (s : StateDoc) (d : String) (v : Bool) :
    (setDevice s d v).led3 = if d = "led3" then v else s.led3 := by
  simp only [setDevice]
  split_ifs <;> simp_all

theorem setDevice_tv (s : StateDoc) (d : String) (v : Bool) :
    (setDevice s d v).tv = if d = "tv" then v else s.tv := by
  simp only [setDevice]
  split_ifs <;> simp_all

theorem setDevice_kill (s : StateDoc) (d : String) (v : Bool) :
    (setDevice s d v).kill = s.kill := by
  simp only [setDevice]
  split_ifs <;> rfl

theorem setDevice_mode (s : StateDoc) (d : String) (v : Bool) :
    (setDevice s d v).mode = s.mode := by
  simp only [setDevice]
  split_ifs <;> rfl

theorem setDevice_timer (s : StateDoc) (d : String) (v : Bool) :
    (setDevice s d v).timer = s.timer := by
  simp only [setDevice]
  split_ifs <;> rfl

theorem getDev_led1 (s : StateDoc) : getDev s "led1" = s.led1 := rfl

theorem getDev_led2 (s : StateDoc) : getDev s "led2" = s.led2 := rfl

theorem getDev_led3 (s : StateDoc) : getDev s "led3" = s.led3 := rfl

theorem getDev_tv (s : StateDoc) : getDev s "tv" = s.tv := rfl

theorem setAllDevices_led1 (devs : List String) (c : Bool) (s : StateDoc) :
    (setAllDevices devs c s).led1 = if "led1" ∈ devs then c else s.led1 := by
  induction devs generalizing s with
  | nil => simp [setAllDevices]
  | cons d ds ih =>
    simp only [setAllDevices, List.foldl_cons] at ih ⊢
    rw [ih, setDevice_led1]
    by_cases h1 : "led1" ∈ ds <;> simp [List.mem_cons, h1, eq_comm]

theorem setAllDevices_led2 (devs : List String) (c : Bool) (s : StateDoc) :
    (setAllDevices devs c s).led2 = if "led2" ∈ devs then c else s.led2 := by
  induction devs generalizing s with
  | nil => simp [setAllDevices]
  | cons d ds ih =>
    simp only [setAllDevices, List.foldl_cons] at ih ⊢
    rw [ih, setDevice_led2]
    by_cases h1 : "led2" ∈ ds <;> simp [List.mem_cons, h1, eq_comm]

theorem setAllDevices_led3 (devs : List String) (c : Bool) (s : StateDoc) :
    (setAllDevices devs c s).led3 = if "led3" ∈ devs then c else s.led3 := by
  induction devs generalizing s with
  | nil => simp [setAllDevices]
  | cons d ds ih =>
    simp only [setAllDevices, List.foldl_cons] at ih ⊢
    rw [ih, setDevice_led3]
    by_cases h1 : "led3" ∈ ds <;> simp [List.mem_cons, h1, eq_comm]

theorem setAllDevices_tv (devs : List String) (c : Bool) (s : StateDoc) :
    (setAllDevices devs c s).tv = if "tv" ∈ devs then c else s.tv := by
  induction devs generalizing s with
  | nil => simp [setAllDevices]
  | cons d ds ih =>
    simp only [setAllDevices, List.foldl_cons] at ih ⊢
    rw [ih, setDevice_tv]
    by_cases h1 : "tv" ∈ ds <;> simp [List.mem_cons, h1, eq_comm]

theorem setAllDevices_kill (devs : List String) (c : Bool) (s : StateDoc) :
    (setAllDevices devs c s).kill = s.kill := by
  induction devs generalizing s with
  | nil => simp [setAllDevices]
  | cons d ds ih =>
    simp only [setAllDevices, List.foldl_cons] at ih ⊢
    rw [ih, setDevice_kill]

theorem setAllDevices_mode (devs : List String) (c : Bool) (s : StateDoc) :
    (setAllDevices devs c s).mode = s.mode := by
  induction devs generalizing s with
  | nil => simp [setAllDevices]
  | cons d ds ih =>
    simp only [setAllDevices, List.foldl_cons] at ih ⊢
    rw [ih, setDevice_mode]

theorem setAllDevices_timer (devs : List String) (c : Bool) (s : StateDoc) :
    (setAllDevices devs c s).timer = s.timer := by
  induction devs generalizing s with
  | nil => simp [setAllDevices]
  | cons d ds ih =>
    simp only [setAllDevices, List.foldl_cons] at ih ⊢
    rw [ih, setDevice_timer]

theorem timerFireUpdates_led1 (t : TimerRecord) (s : StateDoc) :
    (timerFireUpdates t s).led1 =
      if "led1" ∈ t.devices then (t.action == "on") else s.led1 := by
  unfold timerFireUpdates
  split <;> simp [setAllDevices_led1]

theorem timerFireUpdates_led2 (t : TimerRecord) (s : StateDoc) :
    (timerFireUpdates t s).led2 =
      if "led2" ∈ t.devices then (t.action == "on") else s.led2 := by
  unfold timerFireUpdates
  split <;> simp [setAllDevices_led2]

theorem timerFireUpdates_led3 (t : TimerRecord) (s : StateDoc) :
    (timerFireUpdates t s).led3 =
      if "led3" ∈ t.devices then (t.action == "on") else s.led3 := by
  unfold timerFireUpdates
  split <;> simp [setAllDevices_led3]

theorem timerFireUpdates_tv (t : TimerRecord) (s : StateDoc) :
    (timerFireUpdates t s).tv =
      if "tv" ∈ t.devices then (t.action == "on") else s.tv := by
  unfold timerFireUpdates
  split <;> simp [setAllDevices_tv]

theorem timerFireUpdates_kill (t : TimerRecord) (s : StateDoc) :
    (timerFireUpdates t s).kill =
      if t.action = "on" then false else s.kill := by
  unfold timerFireUpdates
  split <;> rename_i h <;> simp_all [setAllDevices_kill]

theorem timerFireUpdates_mode (t : TimerRecord) (s : StateDoc) :
    (timerFireUpdates t s).mode = s.mode := by
  unfold timerFireUpdates
  split <;> simp [setAllDevices_mode]

theorem timerFireUpdates_timer (t : TimerRecord) (s : StateDoc) :
    (timerFireUpdates t s).timer = none := by
  unfold timerFireUpdates
  split <;> simp

/-- The firing merge-update is idempotent on the document: applying the same
update object twice gives the same document as applying it once. -/
theorem timerFireUpdates_idem (t : TimerRecord) (s : StateDoc) :
    timerFireUpdates t (timerFireUpdates t s) = timerFireUpdates t s := by
  ext1
  · simp only [timerFireUpdates_led1]
    by_cases h : "led1" ∈ t.devices <;> simp [h]
  · simp only [timerFireUpdates_led2]
    by_cases h : "led2" ∈ t.devices <;> simp [h]
  · simp only [timerFireUpdates_led3]
    by_cases h : "led3" ∈ t.devices <;> simp [h]
  · simp only [timerFireUpdates_tv]
    by_cases h : "tv" ∈ t.devices <;> simp [h]
  · simp only [timerFireUpdates_mode]
  · simp only [timerFireUpdates_kill]
    by_cases h : t.action = "on" <;> simp [h]
  · simp only [timerFireUpdates_timer]

/-- For a known device key, reading a device after the firing merge-update
gives the written value when the key is listed, the old value otherwise. -/
theorem getDev_timerFireUpdates (t : TimerRecord) (s : StateDoc) (d : String)
    (hd : d ∈ knownDevices) :
    getDev (timerFireUpdates t s) d =
      if d ∈ t.devices then (t.action == "on") else getDev s d := by
  simp only [knownDevices, List.mem_cons, List.not_mem_nil, or_false] at hd
  rcases hd with rfl | rfl | rfl | rfl
  · rw [getDev_led1, getDev_led1, timerFireUpdates_led1]
  · rw [getDev_led2, getDev_led2, timerFireUpdates_led2]
  · rw [getDev_led3, getDev_led3, timerFireUpdates_led3]
  · rw [getDev_tv, getDev_tv, timerFireUpdates_tv]

/-! ### Behaviour of the timer watcher -/

/-- An active snapshot whose id is already tracked leaves the process state
untouched (the callback returns before clearing or arming anything). -/
theorem watchTimer_skip (p : ProcState) (t : TimerRecord) (now : Int)
    (hact : t.active = true) (harmed : (List.lookup t.id p.armed).isSome = true) :
    watchTimer p (some t) now = p := by
  simp [watchTimer, hact, harmed]

/-- An active, untracked snapshot whose deadline has passed fires its
merge-update immediately and leaves no local timer armed. -/
theorem watchTimer_fires (p : ProcState) (t : TimerRecord) (now : Int)
    (hact : t.active = true) (hnew : List.lookup t.id p.armed = none)
    (hexp : t.endsAt ≤ now) :
    watchTimer p (some t) now = { store := timerFireUpdates t p.store, armed := [] } := by
  simp only [watchTimer, hact, if_true, hnew, Option.isSome_none, Bool.false_eq_true,
    if_false]
  rw [if_pos]
  simp only [max_le_iff, le_refl, true_and]
  omega

/-- An active, untracked snapshot whose deadline is in the future arms one
local countdown, under the snapshot id, for exactly `endsAt - now`
milliseconds, and writes nothing to the store. -/
theorem watchTimer_arms (p : ProcState) (t : TimerRecord) (now : Int)
    (hact : t.active = true) (hnew : List.lookup t.id p.armed = none)
    (hfut : now < t.endsAt) :
    watchTimer p (some t) now
      = { store := p.store, armed := [(t.id, t.endsAt - now)] } := by
  simp only [watchTimer, hact, if_true, hnew, Option.isSome_none, Bool.false_eq_true,
    if_false]
  rw [if_neg, max_eq_right (by omega : (0 : Int) ≤ t.endsAt - now)]
  rw [max_eq_right (by omega : (0 : Int) ≤ t.endsAt - now)]
  omega

/-! ### Claim theorems: the timer watcher -/

/-- Claim C1: for every snapshot delivered to the timer watcher carrying an
active timer record whose id is not locally armed, the watcher computes
`remaining = max(0, endsAt - now)`; when `remaining` is 0 it immediately
applies the action — each device in the record's list is set to true iff
the action is `on`, `kill` is cleared when the action is `on` — and sets the
`timer` field to null; otherwise it arms a local countdown for exactly
`remaining` milliseconds whose expiry performs the same merge-update. -/
theorem watcher_applies_or_arms_remaining (p : ProcState) (t : TimerRecord) (now : Int)
    (hact : t.active = true) (hnew : List.lookup t.id p.armed = none) :
    (max 0 (t.endsAt - now) = 0 →
        watchTimer p (some t) now = { store := timerFireUpdates t p.store, armed := [] })
    ∧ (max 0 (t.endsAt - now) ≠ 0 →
        watchTimer p (some t) now
          = { store := p.store, armed := [(t.id, max 0 (t.endsAt - now))] })
    ∧ (∀ d ∈ t.devices, d ∈ knownDevices →
        getDev (timerFireUpdates t p.store) d = (t.action == "on"))
    ∧ (t.action = "on" → (timerFireUpdates t p.store).kill = false)
    ∧ (timerFireUpdates t p.store).timer = none
    ∧ (∀ q : ProcState, (timerExpire q t).store = timerFireUpdates t q.store) := by
  refine ⟨?_, ?_, ?_, ?_, ?_, ?_⟩
  · intro h
    exact watchTimer_fires p t now hact hnew (by omega)
  · intro h
    have hfut : now < t.endsAt := by
      by_contra hc
      exact h (by omega)
    rw [watchTimer_arms p t now hact hnew hfut,
      max_eq_right (by omega : (0 : Int) ≤ t.endsAt - now)]
  · intro d hdl hdk
    rw [getDev_timerFireUpdates t p.store d hdk, if_pos hdl]
  · intro h
    rw [timerFireUpdates_kill, if_pos h]
  · exact timerFireUpdates_timer t p.store
  · intro q
    rfl

/-- A concrete timer record used by the watcher witnesses: turn `led2` off,
scheduled at 0 for 2 seconds. -/
def trecOff : TimerRecord :=
  { id := "timer_0", devices := ["led2"], duration := 2, action := "off"
    startedAt := 0, endsAt := 2000, active := true }

/-- A process with `led2` on and no local timer armed. -/
def procLed2On : ProcState :=
  { store := { defaultState with led2 := true, timer := some trecOff }, armed := [] }

/-- Witness for claim C1: delivering `trecOff` to `procLed2On` at time 5000
(1000 ms past the deadline, the crash-recovery scenario) fires immediately:
`led2` goes off and the timer field is cleared, with nothing armed. -/
theorem watcher_applies_or_arms_remaining_witness :
    watchTimer procLed2On (some trecOff) 5000
      = { store := timerFireUpdates trecOff procLed2On.store, armed := [] }
      ∧ (timerFireUpdates trecOff procLed2On.store).led2 = false
      ∧ (timerFireUpdates trecOff procLed2On.store).timer = none :=
  ⟨(watcher_applies_or_arms_remaining procLed2On trecOff 5000 rfl rfl).1 (by decide),
    by decide, by decide⟩

/-- Claim C4: a snapshot with `timer.active = true` whose id the process is
already tracking is ignored: no countdown is created or cancelled and the
store is untouched — the process state is unchanged. -/
theorem watcher_ignores_tracked_id (p : ProcState) (t : TimerRecord) (now : Int)
    (hact : t.active = true) (harmed : (List.lookup t.id p.armed).isSome = true) :
    watchTimer p (some t) now = p :=
  watchTimer_skip p t now hact harmed

/-- Witness for claim C4: a process already tracking `timer_0` receives the
same active record again and is unchanged. -/
theorem watcher_ignores_tracked_id_witness :
    watchTimer { store := procLed2On.store, armed := [("timer_0", 1500)] }
        (some trecOff) 700
      = { store := procLed2On.store, armed := [("timer_0", 1500)] } :=
  watcher_ignores_tracked_id _ trecOff 700 rfl (by decide)

/-- Claim C5: delivering the same expired active snapshot twice in a row
produces the same final process state (in particular the same device state)
as delivering it once; the second application is a no-op. -/
theorem watcher_fire_idempotent (p : ProcState) (t : TimerRecord) (now : Int)
    (hact : t.active = true) (hexp : t.endsAt ≤ now) :
    watchTimer (watchTimer p (some t) now) (some t) now
      = watchTimer p (some t) now := by
  cases hlk : List.lookup t.id p.armed with
  | none =>
    rw [watchTimer_fires p t now hact hlk hexp]
    rw [watchTimer_fires { store := timerFireUpdates t p.store, armed := [] } t now hact
      rfl hexp]
    simp [timerFireUpdates_idem]
  | some v =>
    have h1 : watchTimer p (some t) now = p :=
      watchTimer_skip p t now hact (by simp [hlk])
    rw [h1]
    exact h1

/-- Witness for claim C5: the expired `trecOff` snapshot delivered twice to
`procLed2On` at time 5000 gives the same state as delivered once. -/
theorem watcher_fire_idempotent_witness :
    watchTimer (watchTimer procLed2On (some trecOff) 5000) (some trecOff) 5000
      = watchTimer procLed2On (some trecOff) 5000 :=
  watcher_fire_idempotent procLed2On trecOff 5000 rfl (by decide)

/-! ### Claim theorems: kill-switch clearing (C2) -/

deriving instance DecidableEq for Except

/-- A document in the default state except that the kill flag is set. -/
def docKillOn : StateDoc := { defaultState with kill := true }

/-- Counterexample for claim C2: toggling `led1` (currently off) turns it on
but the same update leaves `kill` untouched — the stale kill flag survives,
contradicting the claim that every direct toggle turning a device on clears
`killSwitch` in the same atomic update. -/
theorem toggle_leaves_kill_counterexample :
    toggleDevice docKillOn "led1" = .ok { docKillOn with led1 := true }
    ∧ ({ docKillOn with led1 := true }).led1 = true
    ∧ ({ docKillOn with led1 := true }).kill = true :=
  ⟨rfl, rfl, rfl⟩

/-- Claim C2 (amended): a timer firing with action `on` and the `/do` device
routes that end with the device on clear `kill` in the same update; the
direct `/api/toggle/:led` route writes only the device boolean, leaving
`kill` unchanged, and `/api/mode/:mode` writes only the `mode` field. -/
theorem kill_clear_paths (doc : StateDoc) :
    (∀ (t : TimerRecord) (s : StateDoc), t.action = "on" →
        (timerFireUpdates t s).kill = false)
    ∧ (∀ (dev act : String) (doc' : StateDoc), asciiLower act = "on" →
        doDeviceAction doc dev act = .ok doc' → doc'.kill = false)
    ∧ (∀ (dev act key : String) (doc' : StateDoc), asciiLower act = "toggle" →
        List.lookup (asciiLower dev) DEVICE_ALIASES = some key →
        getDev doc key = false →
        doDeviceAction doc dev act = .ok doc' → doc'.kill = false)
    ∧ (∀ (led : String) (doc' : StateDoc),
        toggleDevice doc led = .ok doc' → doc'.kill = doc.kill)
    ∧ (∀ (m : String) (doc' : StateDoc),
        setMode doc m = .ok doc' → doc' = { doc with mode := m }) := by
  refine ⟨?_, ?_, ?_, ?_, ?_⟩
  · intro t s h
    rw [timerFireUpdates_kill, if_pos h]
  · intro dev act doc' hlow hok
    unfold doDeviceAction at hok
    split at hok
    · exact absurd hok (by simp)
    · rename_i key hlk
      simp only [hlow] at hok
      rw [if_neg (show ¬((!(["on", "off", "toggle"].contains ("on" : String))) = true)
        by decide)] at hok
      rw [if_neg (show ¬(("on" : String) = "toggle") by decide)] at hok
      rw [if_pos (show (("on" : String) == "on") = true by decide)] at hok
      simp only [Except.ok.injEq] at hok
      subst hok
      rfl
  · intro dev act key doc' hlow hlk hoff hok
    unfold doDeviceAction at hok
    split at hok
    · exact absurd hok (by simp)
    · rename_i key2 hlk2
      rw [hlk] at hlk2
      injection hlk2 with hk
      subst hk
      simp only [hlow] at hok
      rw [if_neg (show ¬((!(["on", "off", "toggle"].contains ("toggle" : String))) = true)
        by decide)] at hok
      simp only [if_true, hoff, Bool.not_false, eq_self_iff_true] at hok
      simp only [Except.ok.injEq] at hok
      subst hok
      rfl
  · intro led doc' hok
    unfold toggleDevice at hok
    split at hok
    · exact absurd hok (by simp)
    · simp only [Except.ok.injEq] at hok
      rw [← hok, setDevice_kill]
  · intro m doc' hok
    unfold setMode at hok
    split at hok
    · exact absurd hok (by simp)
    · simp only [Except.ok.injEq] at hok
      exact hok.symm

/-- Witness for claim C2 (amended): `GET /do/bedroom/on` on a killed
document turns `led2` on and clears `kill` in the same update. -/
theorem kill_clear_paths_witness :
    doDeviceAction docKillOn "bedroom" "on"
      = .ok { docKillOn with led2 := true, kill := false }
    ∧ ∀ doc', doDeviceAction docKillOn "bedroom" "on" = .ok doc' → doc'.kill = false :=
  ⟨by decide, fun doc' h =>
    (kill_clear_paths docKillOn).2.1 "bedroom" "on" doc' (by decide) h⟩

/-! ### Claim theorems: kill switch and stored outputs (C3) -/

/-- A document in the default state except that `led1` is on. -/
def docLed1On : StateDoc := { defaultState with led1 := true }

/-- Counterexample for claim C3: activating the kill switch does not leave
the stored per-device booleans unchanged — `POST /api/kill` (and
`GET /do/emergency`) write `led1` from true to false in the same update that
sets `kill`. -/
theorem kill_overwrites_outputs_counterexample :
    docLed1On.led1 = true
    ∧ (killRoute docLed1On).led1 = false
    ∧ (killRoute docLed1On).kill = true
    ∧ (doEmergency docLed1On).led1 = false :=
  ⟨rfl, rfl, rfl, rfl⟩

/-- A concrete ESP32 state: kill switch set while `led1` is stored on and
pin 1 still high. -/
def espKilled : EspDeviceState :=
  { led1 := true, led2 := false, led3 := false, killSwitch := true
    mode := "normal", lastAnim := 0, waveStep := 0, pulse := false
    pin1 := true, pin2 := false, pin3 := false }

/-- Claim C3 (amended): the kill routes force the stored device booleans off
in the same update that sets `kill` — `POST /api/kill` clears `led1`-`led3`
(leaving `tv` and `timer` untouched) and `GET /do/emergency` clears all four
— rather than leaving them untouched; on the consumer side the override
reading holds: whenever `killSwitch` is true the hardware engine drives
every pin low and leaves its stored led booleans unchanged, regardless of
mode or stored values. -/
theorem kill_forces_outputs (doc : StateDoc) (s : EspDeviceState) (millis : Nat)
    (r1 r2 r3 : Bool) (hk : s.killSwitch = true) :
    hardwareEngine s millis r1 r2 r3
      = { s with pin1 := false, pin2 := false, pin3 := false }
    ∧ (killRoute doc).led1 = false ∧ (killRoute doc).led2 = false
    ∧ (killRoute doc).led3 = false ∧ (killRoute doc).tv = doc.tv
    ∧ (killRoute doc).kill = true ∧ (killRoute doc).timer = doc.timer
    ∧ doEmergency doc
      = { doc with led1 := false, led2 := false, led3 := false, tv := false
                   kill := true } := by
  refine ⟨?_, rfl, rfl, rfl, rfl, rfl, rfl, rfl⟩
  unfold hardwareEngine
  rw [if_pos hk]

/-- Witness for claim C3 (amended): with the kill switch set, one hardware
engine pass drives all pins low while the stored `led1` boolean stays true. -/
theorem kill_forces_outputs_witness :
    hardwareEngine espKilled 5 false true false
      = { espKilled with pin1 := false, pin2 := false, pin3 := false }
    ∧ espKilled.led1 = true :=
  ⟨(kill_forces_outputs defaultState espKilled 5 false true false rfl).1, rfl⟩

/-! ### Claim theorems: scheduling validation (C6) -/

/-- Claim C6: a scheduling request is rejected with a validation error,
before any write to the store, iff its devices list is missing, empty, or
holds an identifier outside the known device set, or its duration lies
outside [1, 86400] seconds, or its action is neither `on` nor `off`; every
valid request persists a timer record with the fresh time-based id
`timer_<now>`, `active = true`, and `endsAt - startedAt = duration * 1000`
milliseconds, leaving every other document field unchanged. -/
theorem timerStart_valid_iff (req : TimerStartReq) (now : Int) (p : ProcState) :
    ((∃ e, timerStart req now p = Except.error e) ↔
      req.devices = none
      ∨ (∃ l, req.devices = some l ∧ (l = [] ∨ ∃ d ∈ l, d ∉ knownDevices))
      ∨ req.duration < 1 ∨ 86400 < req.duration
      ∨ (req.action ≠ "on" ∧ req.action ≠ "off"))
    ∧ (∀ p' tid, timerStart req now p = Except.ok (p', tid) →
        ∃ l, req.devices = some l
        ∧ p'.store.timer = some { id := "timer_" ++ toString now, devices := l
                                  duration := req.duration, action := req.action
                                  startedAt := now
                                  endsAt := now + req.duration * 1000, active := true }
        ∧ tid = "timer_" ++ toString now
        ∧ (now + req.duration * 1000) - now = req.duration * 1000
        ∧ p'.store.led1 = p.store.led1 ∧ p'.store.led2 = p.store.led2
        ∧ p'.store.led3 = p.store.led3 ∧ p'.store.tv = p.store.tv
        ∧ p'.store.mode = p.store.mode ∧ p'.store.kill = p.store.kill) := by
  obtain ⟨devs, dur, act⟩ := req
  cases devs with
  | none =>
    constructor
    · simp [timerStart]
    · intro p' tid h
      simp [timerStart] at h
  | some l =>
    simp only [timerStart]
    split_ifs with h1 h2 h3 h4
    · simp only [List.isEmpty_iff] at h1
      subst h1
      constructor
      · simp
      · intro p' tid h
        simp at h
    · constructor
      · refine iff_of_true ⟨.badDuration, rfl⟩ ?_
        have : dur < 1 ∨ 86400 < dur := by omega
        tauto
      · intro p' tid h
        simp at h
    · constructor
      · refine iff_of_true ⟨.badAction, rfl⟩ ?_
        simp only [Bool.not_eq_true'] at h3
        simp at h3
        tauto
      · intro p' tid h
        simp at h
    · constructor
      · refine iff_of_true ⟨.badDeviceNames, rfl⟩ ?_
        simp only [Bool.not_eq_true'] at h4
        simp at h4
        obtain ⟨d, hdl, hdk⟩ := h4
        exact Or.inr (Or.inl ⟨l, rfl, Or.inr ⟨d, hdl, hdk⟩⟩)
      · intro p' tid h
        simp at h
    · simp only [Bool.not_eq_true'] at h3 h4
      simp at h1 h3 h4
      constructor
      · refine iff_of_false ?_ ?_
        · rintro ⟨e, he⟩
          simp at he
        · rintro (h | ⟨l', hl', hbad⟩ | h | h | h)
          · simp at h
          · obtain rfl : l = l' := by simpa using hl'
            rcases hbad with rfl | ⟨d, hdl, hdk⟩
            · exact h1 rfl
            · exact hdk (h4 d hdl)
          · omega
          · omega
          · tauto
      · intro p' tid h
        simp only [Except.ok.injEq, Prod.mk.injEq] at h
        obtain ⟨hp', htid⟩ := h
        refine ⟨l, rfl, ?_, htid.symm, by ring, ?_, ?_, ?_, ?_, ?_, ?_⟩ <;>
          rw [← hp']

/-- Witness for claim C6: the request `{devices: [led2], duration: 2,
action: off}` issued at time 1000 is accepted and persists the expected
record. -/
theorem timerStart_valid_iff_witness :
    (∃ l, (TimerStartReq.mk (some ["led2"]) 2 "off").devices = some l)
    ∧ (timerStart (TimerStartReq.mk (some ["led2"]) 2 "off") 1000
        { store := defaultState, armed := [] }).isOk = true := by
  obtain ⟨l, h1, -⟩ :=
    (timerStart_valid_iff (TimerStartReq.mk (some ["led2"]) 2 "off") 1000
        { store := defaultState, armed := [] }).2
      { store := { defaultState with
          timer := some { id := "timer_" ++ toString (1000 : Int), devices := ["led2"]
                          duration := 2, action := "off", startedAt := 1000
                          endsAt := 3000, active := true } }
        armed := [] }
      ("timer_" ++ toString (1000 : Int)) rfl
  exact ⟨⟨l, h1⟩, rfl⟩

/-! ### Claim theorems: timer status query (C7, C10) -/

/-- Rounding up a nonpositive millisecond difference gives a nonpositive
second count. -/
theorem ceilDiv_nonpos (a : Int) (h : a ≤ 0) : ceilDiv a 1000 ≤ 0 := by
  unfold ceilDiv
  omega

/-- Rounding up a positive millisecond difference gives at least one
second. -/
theorem ceilDiv_pos (a : Int) (h : 1 ≤ a) : 1 ≤ ceilDiv a 1000 := by
  unfold ceilDiv
  omega

/-- The status query on an active record past its deadline clears the stored
timer and answers inactive. -/
theorem timerStatus_expired (doc : StateDoc) (t : TimerRecord) (now : Int)
    (ht : doc.timer = some t) (hact : t.active = true) (hexp : t.endsAt ≤ now) :
    timerStatus doc now = ({ doc with timer := none }, .inactive) := by
  unfold timerStatus
  rw [ht]
  simp only [hact, if_true]
  rw [if_pos]
  have := ceilDiv_nonpos (t.endsAt - now) (by omega)
  omega

/-- The status query on an active record before its deadline changes nothing
and answers the record with the rounded-up remaining seconds. -/
theorem timerStatus_running (doc : StateDoc) (t : TimerRecord) (now : Int)
    (ht : doc.timer = some t) (hact : t.active = true) (hfut : now < t.endsAt) :
    timerStatus doc now = (doc, .active t (ceilDiv (t.endsAt - now) 1000)) := by
  unfold timerStatus
  rw [ht]
  simp only [hact, if_true]
  have hge := ceilDiv_pos (t.endsAt - now) (by omega)
  rw [if_neg (by omega), max_eq_right (by omega)]

/-- A concrete active record with `endsAt = 1500`. -/
def trecMs : TimerRecord :=
  { id := "timer_0", devices := ["led1"], duration := 2, action := "off"
    startedAt := 0, endsAt := 1500, active := true }

/-- `defaultState` holding `trecMs`. -/
def docT15 : StateDoc := { defaultState with timer := some trecMs }

/-- Counterexample for claim C7: with 1500 ms left, the status query answers
`remaining = 2` (whole seconds, rounded up), not `max(0, endsAt - now) =
1500` — the returned value is the millisecond difference divided by 1000 and
rounded up, not the difference itself. -/
theorem timer_status_remaining_counterexample :
    (timerStatus docT15 0).2 = .active trecMs 2
    ∧ max 0 (trecMs.endsAt - 0) = 1500
    ∧ (2 : Int) ≠ 1500 :=
  ⟨rfl, rfl, by decide⟩

/-- Claim C7 (amended): for a status query on a persisted active record, the
returned remaining time is `max(0, ceil((endsAt - now) / 1000))` seconds —
the millisecond difference rounded up to whole seconds, clamped to 0 — and
once that value reaches 0 (exactly when `endsAt ≤ now`) the query reports no
active timer. -/
theorem timer_status_remaining_spec (doc : StateDoc) (t : TimerRecord) (now : Int)
    (ht : doc.timer = some t) (hact : t.active = true) :
    (now < t.endsAt →
        timerStatus doc now = (doc, .active t (ceilDiv (t.endsAt - now) 1000))
        ∧ ceilDiv (t.endsAt - now) 1000 = max 0 (ceilDiv (t.endsAt - now) 1000)
        ∧ 1 ≤ ceilDiv (t.endsAt - now) 1000)
    ∧ (t.endsAt ≤ now →
        max 0 (ceilDiv (t.endsAt - now) 1000) = 0
        ∧ timerStatus doc now = ({ doc with timer := none }, .inactive)) := by
  constructor
  · intro hfut
    have hge := ceilDiv_pos (t.endsAt - now) (by omega)
    exact ⟨timerStatus_running doc t now ht hact hfut, by omega, hge⟩
  · intro hexp
    have hle := ceilDiv_nonpos (t.endsAt - now) (by omega)
    exact ⟨by omega, timerStatus_expired doc t now ht hact hexp⟩

/-- Witness for claim C7 (amended): querying `docT15` at time 0 answers the
record with 2 seconds remaining. -/
theorem timer_status_remaining_spec_witness :
    timerStatus docT15 0 = (docT15, .active trecMs (ceilDiv (trecMs.endsAt - 0) 1000))
    ∧ 1 ≤ ceilDiv (trecMs.endsAt - 0) 1000 := by
  obtain ⟨h1, -, h3⟩ :=
    (timer_status_remaining_spec docT15 trecMs 0 rfl rfl).1 (by decide)
  exact ⟨h1, h3⟩

/-- Claim C10: a status query that finds a persisted active record whose
deadline has passed sets the stored `timer` field to null without applying
the record's action — the read mutates the document, and the expired
timer's device-state change is discarded: every device boolean, the kill
flag and the mode are unchanged. -/
theorem timer_status_discards_expired (doc : StateDoc) (t : TimerRecord) (now : Int)
    (ht : doc.timer = some t) (hact : t.active = true) (hexp : t.endsAt ≤ now) :
    timerStatus doc now = ({ doc with timer := none }, .inactive)
    ∧ (∀ d, getDev { doc with timer := none } d = getDev doc d)
    ∧ ({ doc with timer := none } : StateDoc).kill = doc.kill
    ∧ ({ doc with timer := none } : StateDoc).mode = doc.mode := by
  refine ⟨timerStatus_expired doc t now ht hact hexp, ?_, rfl, rfl⟩
  intro d
  unfold getDev
  split_ifs <;> rfl

/-- Witness for claim C10: an expired record (deadline 1500, queried at
5000) is cleared by the query while `led1` keeps its stored value. -/
theorem timer_status_discards_expired_witness :
    timerStatus docT15 5000 = ({ docT15 with timer := none }, .inactive)
    ∧ getDev { docT15 with timer := none } "led1" = getDev docT15 "led1" := by
  obtain ⟨h1, h2, -, -⟩ :=
    timer_status_discards_expired docT15 trecMs 5000 rfl rfl (by decide)
  exact ⟨h1, h2 "led1"⟩

/-! ### Claim theorems: mode enumeration (C8) -/

/-- Counterexample for claim C8: `disco` is in the spec's closed enumeration
but the set-mode route rejects it with a validation error (the route comment
says disco was removed to fix an LED2 conflict). -/
theorem mode_disco_rejected_counterexample :
    "disco" ∈ specModeEnumeration
    ∧ setMode defaultState "disco" = .error .invalidMode :=
  ⟨by decide, rfl⟩

/-- Claim C8 (amended): the set-mode operation accepts exactly
{`normal`, `wave`, `pulse`} — persisting the accepted string as the
document's `mode` field and changing nothing else — and rejects every other
string, including the spec-listed `disco`, with a validation error that
leaves the document untouched; the hardware engine nevertheless still
implements a disco pattern when the mirrored mode field holds `disco`. -/
theorem setMode_accepts_server_modes (doc : StateDoc) (m : String) :
    (m ∈ serverModes → setMode doc m = .ok { doc with mode := m })
    ∧ (m ∉ serverModes → setMode doc m = .error .invalidMode)
    ∧ (∀ (s : EspDeviceState) (millis : Nat) (r1 r2 r3 : Bool),
        s.killSwitch = false → s.mode = "disco" → 200 ≤ millis - s.lastAnim →
        hardwareEngine s millis r1 r2 r3
          = { s with lastAnim := millis, pin1 := r1, pin2 := r2, pin3 := r3 }) := by
  refine ⟨?_, ?_, ?_⟩
  · intro hm
    unfold setMode
    rw [if_neg]
    simp [hm]
  · intro hm
    unfold setMode
    rw [if_pos]
    simp [hm]
  · intro s millis r1 r2 r3 hk hm hanim
    unfold hardwareEngine
    rw [if_neg (by simp [hk])]
    rw [if_neg (by rw [hm]; decide)]
    rw [if_neg (by omega)]
    simp only [hm]
    rw [if_neg (show ¬(("disco" : String) = "wave") by decide)]
    rw [if_neg (show ¬(("disco" : String) = "pulse") by decide)]
    rw [if_pos trivial]

/-- Witness for claim C8 (amended): `wave` is accepted and persisted,
`disco` is rejected. -/
theorem setMode_accepts_server_modes_witness :
    setMode defaultState "wave" = .ok { defaultState with mode := "wave" }
    ∧ setMode defaultState "disco" = .error .invalidMode :=
  ⟨(setMode_accepts_server_modes defaultState "wave").1 (by decide),
    (setMode_accepts_server_modes defaultState "disco").2.1 (by decide)⟩

/-! ### Claim theorems: hardware presence tracker (C9) -/

/-- Once `esp32Status` is offline with an unchanged `lastSeen`, any sequence
of ticks and status queries whose times all lie past the timeout threshold
leaves it offline: only a heartbeat can bring it back online. -/
theorem espRun_stays_offline (ls : Int) (evs : List (Int × EspEvent)) :
    ∀ st : Esp32Status, st.online = false → st.lastSeen = some ls →
    (∀ te ∈ evs, (∀ b ip, te.2 ≠ EspEvent.heartbeat b ip)
      ∧ ESP_TIMEOUT_MS < te.1 - ls) →
    (espRun st evs).online = false := by
  induction evs with
  | nil =>
    intro st h1 _ _
    exact h1
  | cons te evs ih =>
    rintro st h1 h2 h3
    obtain ⟨t, e⟩ := te
    obtain ⟨hnh, hlate⟩ := h3 (t, e) (List.mem_cons_self _ _)
    have hrest := fun te h => h3 te (List.mem_cons_of_mem _ h)
    have hstep : (espStep st t e).online = false
        ∧ (espStep st t e).lastSeen = some ls := by
      cases e with
      | heartbeat b ip => exact absurd rfl (hnh b ip)
      | tick =>
        have hred : espStep st t .tick
            = if ESP_TIMEOUT_MS < t - ls then { st with online := false } else st := by
          simp only [espStep, espTick, h2]
        rw [hred]
        by_cases hc : ESP_TIMEOUT_MS < t - ls
        · rw [if_pos hc]
          exact ⟨rfl, h2⟩
        · rw [if_neg hc]
          exact ⟨h1, h2⟩
      | status =>
        have hred : espStep st t .status
            = { st with online := decide (t - ls < ESP_TIMEOUT_MS) } := by
          simp only [espStep, espStatusQuery, h2]
        rw [hred]
        refine ⟨?_, h2⟩
        show decide (t - ls < ESP_TIMEOUT_MS) = false
        rw [decide_eq_false_iff_not]
        simp only [ESP_TIMEOUT_MS] at hlate ⊢
        omega
    show (espRun (espStep st t e) evs).online = false
    exact ih (espStep st t e) hstep.1 hstep.2 hrest

/-- Claim C9: a heartbeat puts the tracker online with `lastSeen` the
receipt time; once `now - lastSeen` exceeds the 30000 ms threshold with no
further heartbeat, a status query reports offline, and no sequence of ticks
and status queries past the threshold ever transitions back to online — only
a fresh heartbeat does. -/
theorem presence_tracker_spec :
    (∀ (st : Esp32Status) (b : HeartbeatBody) (ip : String) (t : Int),
        (espStep st t (.heartbeat b ip)).online = true
        ∧ (espStep st t (.heartbeat b ip)).lastSeen = some t)
    ∧ (∀ (st : Esp32Status) (ls now : Int), st.lastSeen = some ls →
        ESP_TIMEOUT_MS < now - ls →
        (espStatusQuery st now).online = false)
    ∧ (∀ (ls : Int) (st : Esp32Status) (evs : List (Int × EspEvent)),
        st.online = false → st.lastSeen = some ls →
        (∀ te ∈ evs, (∀ b ip, te.2 ≠ EspEvent.heartbeat b ip)
          ∧ ESP_TIMEOUT_MS < te.1 - ls) →
        (espRun st evs).online = false) := by
  refine ⟨?_, ?_, ?_⟩
  · intro st b ip t
    exact ⟨rfl, rfl⟩
  · intro st ls now h hlate
    simp only [espStatusQuery, h]
    rw [decide_eq_false_iff_not]
    simp only [ESP_TIMEOUT_MS] at hlate ⊢
    omega
  · intro ls st evs h1 h2 h3
    exact espRun_stays_offline ls evs st h1 h2 h3

/-- Witness for claim C9: one heartbeat at time 0 puts the tracker online;
with no further heartbeat, a status query at time 31000 (past the 30000 ms
threshold) reports offline. -/
theorem presence_tracker_spec_witness :
    (espStep initialEspStatus 0
        (.heartbeat (HeartbeatBody.mk none none none none) "10.0.0.5")).online = true
    ∧ (espStatusQuery
        (espStep initialEspStatus 0
          (.heartbeat (HeartbeatBody.mk none none none none) "10.0.0.5"))
        31000).online = false :=
  ⟨(presence_tracker_spec.1 initialEspStatus
      (HeartbeatBody.mk none none none none) "10.0.0.5" 0).1,
    presence_tracker_spec.2.1 _ 0 31000 rfl (by decide)⟩
